import Mathlib

/-
Verification of the POC repository's retry decorator, structured logger and
exception-to-HTTP mapping against their natural-language specification.

The Python sources are shallowly embedded: exceptions become explicit error
values, the retry loop becomes a recursion over the list of attempt numbers
produced by range(1, max_tries + 1), logger mutation becomes an explicit
heap of logger states, and every place where Python could raise is an
Except value.
-/

namespace POC

/-- A Python exception value as seen by the retry machinery: the class name
of the exception (`kind`, compared by `except tuple(exceptions_to_check)`)
and its message. -/
structure PyExc where
  kind : String
  msg : String
deriving DecidableEq

/-- The `exceptions_to_check` argument of `retry` after the normalisation at
the top of `retry` (a single class is wrapped into a list).  The default
`Exception` catches every exception raised by the operation; a list of
specific classes catches exactly those kinds.  (None of the verified claims
involve exception subclassing, so kind equality models `isinstance`.) -/
inductive Catcher where
  | all : Catcher
  | only (kinds : List String) : Catcher
deriving DecidableEq

/-- Whether `except tuple(exceptions_to_check)` catches the exception. -/
def Catcher.catches : Catcher → PyExc → Bool
  | .all, _ => true
  | .only kinds, e => kinds.contains e.kind

/-- How one call of `_retry_function` terminates. -/
inductive RetryOutcome (α : Type) where
  | ok (a : α)
  | raised (e : PyExc)
  | raisedNone
deriving DecidableEq

/-- Observable trace of one call of `_retry_function`: how many times the
wrapped operation was invoked, the sleep durations in order, how many
`logger.warning` and `logger.error` calls were made, and the outcome.
`raisedNone` is `raise last_exception` with `last_exception = None`, which
the host raises as a TypeError rather than any operation-derived error. -/
structure RetryTrace (α : Type) where
  invocations : Nat
  waits : List ℚ
  warnLogs : Nat
  errorLogs : Nat
  outcome : RetryOutcome α
deriving DecidableEq

/-- The body of `for attempt in range(1, max_tries + 1)` in
`_retry_function` (src/common/helpers/retry_service.py lines 88-107),
recursing over the list of remaining attempt numbers.  `op k` is the
outcome of the k-th invocation of the wrapped function.  On success the
result is returned at once; a caught exception is stored in
`last_exception` and, when `attempt < max_tries`, a warning is logged and
the loop sleeps `delay_seconds * backoff_factor ** (attempt - 1)`; on the
final attempt `logger.error` is called instead; an uncaught exception
propagates immediately.  After the loop, `raise last_exception`. -/
def retryGo (maxTries : Int) (delay backoff : ℚ) (catcher : Catcher)
    (op : Nat → Except PyExc α) : List Nat → Option PyExc → RetryTrace α
  | [], last =>
      { invocations := 0, waits := [], warnLogs := 0, errorLogs := 0,
        outcome := match last with
          | none => .raisedNone
          | some e => .raised e }
  | attempt :: rest, _last =>
      match op attempt with
      | .ok a =>
          { invocations := 1, waits := [], warnLogs := 0, errorLogs := 0,
            outcome := .ok a }
      | .error e =>
          if catcher.catches e then
            if (attempt : Int) < maxTries then
              let w := delay * backoff ^ (attempt - 1)
              let t := retryGo maxTries delay backoff catcher op rest (some e)
              { invocations := t.invocations + 1, waits := w :: t.waits,
                warnLogs := t.warnLogs + 1, errorLogs := t.errorLogs,
                outcome := t.outcome }
            else
              let t := retryGo maxTries delay backoff catcher op rest (some e)
              { invocations := t.invocations + 1, waits := t.waits,
                warnLogs := t.warnLogs, errorLogs := t.errorLogs + 1,
                outcome := t.outcome }
          else
            { invocations := 1, waits := [], warnLogs := 0, errorLogs := 0,
              outcome := .raised e }

/-- `_retry_function` (src/common/helpers/retry_service.py lines 83-107):
`max_tries` is a Python int, so `range(1, max_tries + 1)` yields the
attempt numbers `1, ..., max_tries` (none when `max_tries < 1`), and
`last_exception` starts as `None`. -/
def retryFun (maxTries : Int) (delay backoff : ℚ) (catcher : Catcher)
    (op : Nat → Except PyExc α) : RetryTrace α :=
  retryGo maxTries delay backoff catcher op (List.range' 1 maxTries.toNat) none

/-- What a plain (non-awaited) call of the decorated wrapper hands back to
the caller. -/
inductive Returned (α : Type) where
  | result (a : α)
  | coroutineObject
deriving DecidableEq

/-- Observable behaviour of one plain call of the wrapper produced for a
synchronous function.  `pendingTrace` is the trace `_retry_function` would
produce if some later code awaited the returned coroutine; the plain call
itself does not run it. -/
structure SyncPlainCall (α : Type) where
  executedInvocations : Nat
  executedSleeps : List ℚ
  returned : Returned α
  pendingTrace : RetryTrace α
deriving DecidableEq

/-- The sync branch of the decorator (src/common/helpers/retry_service.py
lines 119-127): `def wrapper(*args, **kwargs): return _retry_function(*args,
**kwargs)` where `_retry_function` is `async def`, so the call expression
only builds a coroutine object - none of the body runs, no attempt is made,
no sleep happens - and the wrapper returns that object. -/
def syncWrapperPlainCall (maxTries : Int) (delay backoff : ℚ) (catcher : Catcher)
    (op : Nat → Except PyExc α) : SyncPlainCall α :=
  { executedInvocations := 0, executedSleeps := [],
    returned := .coroutineObject,
    pendingTrace := retryFun maxTries delay backoff catcher op }

end POC

namespace POC

/-- C6: retry exhaustion.  With max_tries = 3 and an operation that fails on
every invocation with an exception the policy catches, `_retry_function`
invokes the operation exactly 3 times, logs a warning exactly twice, logs
an error exactly once, and finally raises the exact exception object of the
third invocation, unwrapped. -/
theorem retry_exhaustion_three_attempts {α : Type} (delay backoff : ℚ)
    (catcher : Catcher) (es : Nat → PyExc) (op : Nat → Except PyExc α)
    (hop : ∀ k, op k = .error (es k))
    (hc : ∀ k, catcher.catches (es k) = true) :
    (retryFun 3 delay backoff catcher op).invocations = 3 ∧
    (retryFun 3 delay backoff catcher op).warnLogs = 2 ∧
    (retryFun 3 delay backoff catcher op).errorLogs = 1 ∧
    (retryFun 3 delay backoff catcher op).outcome = .raised (es 3) := by
  have hr : List.range' 1 (Int.toNat 3) = [1, 2, 3] := by decide
  simp [retryFun, hr, retryGo, hop, hc]

/-- Witness for C6 at a concrete always-failing operation. -/
theorem retry_exhaustion_three_attempts_witness :
    (retryFun 3 1 2 .all (fun k => .error ⟨"ConnErr", toString k⟩) : RetryTrace String).invocations = 3 ∧
    (retryFun 3 1 2 .all (fun k => .error ⟨"ConnErr", toString k⟩) : RetryTrace String).warnLogs = 2 ∧
    (retryFun 3 1 2 .all (fun k => .error ⟨"ConnErr", toString k⟩) : RetryTrace String).errorLogs = 1 ∧
    (retryFun 3 1 2 .all (fun k => .error ⟨"ConnErr", toString k⟩) : RetryTrace String).outcome
      = .raised ⟨"ConnErr", toString 3⟩ :=
  retry_exhaustion_three_attempts 1 2 .all (fun k => ⟨"ConnErr", toString k⟩) _
    (fun _ => rfl) (fun _ => rfl)

/-- C7: backoff schedule and result.  With max_tries = 3, delay_seconds = 1
and backoff_factor = 2, an operation that fails with a caught exception on
its first two invocations and succeeds on the third makes `_retry_function`
sleep exactly twice, 1 then 2 seconds (delay * backoff ^ (attempt - 1)),
invoke the operation exactly 3 times, and return the third invocation's
value. -/
theorem retry_backoff_schedule_and_result {α : Type} (catcher : Catcher)
    (e1 e2 : PyExc) (v : α) (op : Nat → Except PyExc α)
    (h1 : op 1 = .error e1) (h2 : op 2 = .error e2) (h3 : op 3 = .ok v)
    (hc1 : catcher.catches e1 = true) (hc2 : catcher.catches e2 = true) :
    (retryFun 3 1 2 catcher op).waits = [1, 2] ∧
    (retryFun 3 1 2 catcher op).invocations = 3 ∧
    (retryFun 3 1 2 catcher op).outcome = .ok v := by
  have hr : List.range' 1 (Int.toNat 3) = [1, 2, 3] := by decide
  simp [retryFun, hr, retryGo, h1, h2, h3, hc1, hc2]

/-- Witness for C7 at a concrete fail-fail-succeed operation. -/
theorem retry_backoff_schedule_and_result_witness :
    (retryFun 3 1 2 .all
      (fun k => if k < 3 then .error ⟨"IOErr", "transient"⟩ else .ok "done")).waits = [1, 2] ∧
    (retryFun 3 1 2 .all
      (fun k => if k < 3 then .error ⟨"IOErr", "transient"⟩ else .ok "done")).invocations = 3 ∧
    (retryFun 3 1 2 .all
      (fun k => if k < 3 then .error ⟨"IOErr", "transient"⟩ else .ok "done")).outcome
        = .ok "done" :=
  retry_backoff_schedule_and_result .all ⟨"IOErr", "transient"⟩ ⟨"IOErr", "transient"⟩
    "done" _ rfl rfl rfl rfl rfl

/-- C8: non-retryable exceptions propagate immediately.  If the policy's
exception list does not catch the exception raised by the first invocation,
`_retry_function` invokes the operation exactly once, sleeps and logs
nothing, and lets that exact exception propagate. -/
theorem nonretryable_error_propagates_immediately {α : Type} (maxTries : Int)
    (delay backoff : ℚ) (catcher : Catcher) (e : PyExc)
    (op : Nat → Except PyExc α) (hmt : 1 ≤ maxTries)
    (h1 : op 1 = .error e) (hc : catcher.catches e = false) :
    retryFun maxTries delay backoff catcher op =
      { invocations := 1, waits := [], warnLogs := 0, errorLogs := 0,
        outcome := .raised e } := by
  obtain ⟨k, hk⟩ : ∃ k, maxTries.toNat = k + 1 := ⟨maxTries.toNat - 1, by omega⟩
  simp [retryFun, hk, List.range', retryGo, h1, hc]

/-- Witness for C8: an operation raising KindB under a policy that only
retries KindA. -/
theorem nonretryable_error_propagates_immediately_witness :
    retryFun 3 1 2 (.only ["KindA"])
        (fun _ => (.error ⟨"KindB", "boom"⟩ : Except PyExc String)) =
      { invocations := 1, waits := [], warnLogs := 0, errorLogs := 0,
        outcome := .raised ⟨"KindB", "boom"⟩ } :=
  nonretryable_error_propagates_immediately 3 1 2 (.only ["KindA"]) ⟨"KindB", "boom"⟩
    _ (by decide) rfl (by decide)

/-- C10: with max_tries below 1, `range(1, max_tries + 1)` is empty, so
`_retry_function` never invokes the operation and logs nothing, and the
final `raise last_exception` raises the sentinel `None` (a TypeError in the
host semantics) rather than any operation-derived error. -/
theorem retry_zero_max_tries_raises_none {α : Type} (maxTries : Int)
    (hmt : maxTries < 1) (delay backoff : ℚ) (catcher : Catcher)
    (op : Nat → Except PyExc α) :
    retryFun maxTries delay backoff catcher op =
      { invocations := 0, waits := [], warnLogs := 0, errorLogs := 0,
        outcome := .raisedNone } := by
  have h0 : maxTries.toNat = 0 := by omega
  simp [retryFun, h0, List.range', retryGo]

/-- Witness for C10 at max_tries = 0 and an operation that would succeed. -/
theorem retry_zero_max_tries_raises_none_witness :
    retryFun 0 1 2 .all (fun _ => (.ok "never" : Except PyExc String)) =
      { invocations := 0, waits := [], warnLogs := 0, errorLogs := 0,
        outcome := .raisedNone } :=
  retry_zero_max_tries_raises_none 0 (by decide) 1 2 .all _

/-- C1 (code bug): the wrapper built for a synchronous function does not
have the wrapped callable's calling convention.  A plain (non-awaited) call
returns an unstarted coroutine object instead of the operation's result,
invokes the operation zero times and performs no sleeps; the attempt
sequence and its result exist only in the pending coroutine, which the
plain call never runs.  This contradicts the decorator's own docstring
("Returns: The result of the decorated function upon success") and the
spec's sync/async symmetry requirement. -/
theorem retry_sync_plain_call_returns_unrun_coroutine :
    (syncWrapperPlainCall 3 1 2 .all
        (fun _ => (.ok "success" : Except PyExc String))).returned
      = .coroutineObject ∧
    (syncWrapperPlainCall 3 1 2 .all
        (fun _ => (.ok "success" : Except PyExc String))).executedInvocations = 0 ∧
    (syncWrapperPlainCall 3 1 2 .all
        (fun _ => (.ok "success" : Except PyExc String))).executedSleeps = [] ∧
    (syncWrapperPlainCall 3 1 2 .all
        (fun _ => (.ok "success" : Except PyExc String))).pendingTrace.outcome
      = .ok "success" := by
  refine ⟨rfl, rfl, rfl, ?_⟩
  have hr : List.range' 1 (Int.toNat 3) = [1, 2, 3] := by decide
  simp [syncWrapperPlainCall, retryFun, hr, retryGo]

/-- A value stored in a structured log record. -/
inductive FieldVal where
  | str (s : String)
  | int (n : Int)
deriving DecidableEq

/-- A structured log record: the event dict assembled by structlog.  It is
an ordered key/value list with dict-update semantics, so a later entry for
a key overrides an earlier one. -/
abbrev Record := List (String × FieldVal)

/-- Dict lookup on a record: the last binding of the key wins, matching the
Python dict built by successive updates. -/
def recordGet (r : Record) (k : String) : Option FieldVal :=
  r.foldl (fun acc kv => if kv.1 = k then some kv.2 else acc) none

/-- State of a CustomLogger object (src/common/logging/custom_logger.py
lines 160-183): the normalized name, the `request_id` attribute, and the
key/value context bound into the underlying structlog domain and audit
loggers. -/
structure CustomLogger where
  name : String
  request_id : Option String
  domainContext : Record
  auditContext : Record
deriving DecidableEq

/-- Strip leading and trailing slash characters, as `name.strip("/")`. -/
def stripSlashes (s : String) : String :=
  (((s.toList.dropWhile (· = '/')).reverse.dropWhile (· = '/')).reverse).asString

/-- `CustomLogger._normalize_name` (lines 185-201): drop an `app.` prefix,
and rewrite URL-path names to dot notation. -/
def normalizeName (name : String) : String :=
  let name := if name.startsWith "app." then name.drop 4 else name
  if name.startsWith "/" then (stripSlashes name).replace "/" "." else name

/-- `CustomLogger.__init__` (lines 171-183): fresh loggers carry no bound
context and no request id. -/
def CustomLogger.init (name : String) : CustomLogger :=
  { name := normalizeName name, request_id := none,
    domainContext := [], auditContext := [] }

/-- State transition of `CustomLogger.bind_request_id` (lines 203-212): the
method assigns `self.request_id` and rebinds `self.domain_logger` and
`self.audit_logger` with `request_id` added to their bound context.
Rebinding appends the pair, and a later binding for the same key overrides
an earlier one, as in structlog's `bind`. -/
def CustomLogger.bindRequestId (L : CustomLogger) (rid : String) : CustomLogger :=
  { L with request_id := some rid,
           domainContext := L.domainContext ++ [("request_id", .str rid)],
           auditContext := L.auditContext ++ [("request_id", .str rid)] }

/-- A reference to a CustomLogger object; logger identity matters because
`bind_request_id` mutates the object it is called on. -/
structure LoggerRef where
  id : Nat
deriving DecidableEq

/-- The heap of logger objects, by reference id. -/
def LoggerHeap := Nat → CustomLogger

/-- The call `L.bind_request_id(rid)` as a heap operation: the object named
by `r` is updated in place (the method assigns to `self`), and the method
returns `self` - the very same reference - for chaining. -/
def bindRequestIdOp (h : LoggerHeap) (r : LoggerRef) (rid : String) :
    LoggerHeap × LoggerRef :=
  (fun i => if i = r.id then (h r.id).bindRequestId rid else h i, r)

/-- Outcome of `inspect.getmodule(frame)`: the module (whose name is read),
`None`, or an exception. -/
inductive GetModuleResult where
  | ok (m : Option String)
  | raises
deriving DecidableEq

/-- A stack frame as `_get_caller_info` consumes it: the outcome of
`inspect.getmodule`, the code object's name and the line number. -/
structure Frame where
  getmodule : GetModuleResult
  funcName : String
  lineno : Int
deriving DecidableEq

/-- The caller-location triple produced by `_get_caller_info`. -/
structure CallerInfo where
  module : String
  func_name : String
  lineno : Int
deriving DecidableEq

/-- `CustomLogger._default_caller_info` (lines 271-280). -/
def defaultCallerInfo : CallerInfo :=
  { module := "unknown", func_name := "unknown", lineno := 0 }

/-- `CustomLogger._get_caller_info` (lines 214-269).  `stack` is the frame
chain starting at `_get_caller_info`'s own frame; `none` models
`inspect.currentframe()` returning `None` (frame introspection
unavailable).  The code takes three `f_back` steps with a `None` check at
each, which reaches index 3 exactly when the chain has at least 4 frames;
`inspect.getmodule` raising is caught by the blanket `except Exception`,
and a missing module yields the name "unknown".  The per-call-site cache is
omitted: it returns exactly the value previously computed for the same code
object and line, so it does not change the produced value. -/
def getCallerInfo (stack : Option (List Frame)) : CallerInfo :=
  match stack with
  | none => defaultCallerInfo
  | some frames =>
    match frames[3]? with
    | none => defaultCallerInfo
    | some f =>
      match f.getmodule with
      | .raises => defaultCallerInfo
      | .ok m =>
        { module := m.getD "unknown", func_name := f.funcName, lineno := f.lineno }

/-- A way a modelled log call can fail in the host language. -/
inductive PyErr where
  | typeError
  | valueError
  | attributeError
deriving DecidableEq

/-- The five emit-family levels routed through `_log_domain`. -/
inductive Level where
  | debug
  | info
  | warning
  | error
  | critical
deriving DecidableEq

/-- Printable name of a level, as structlog's `add_log_level` records it. -/
def Level.name : Level → String
  | .debug => "debug"
  | .info => "info"
  | .warning => "warning"
  | .error => "error"
  | .critical => "critical"

/-- Keyword names `_log_domain` always passes to the structlog method:
`log_type="domain"` plus the three unpacked caller-info keys. -/
def reservedKeys : List String := ["log_type", "module", "func_name", "lineno"]

/-- The keyword arguments `_log_domain` itself supplies to the structlog
method: `log_type="domain"` and the three unpacked caller-info entries. -/
def callerFields (ci : CallerInfo) : Record :=
  [("log_type", .str "domain"), ("module", .str ci.module),
   ("func_name", .str ci.func_name), ("lineno", .int ci.lineno)]

/-- `CustomLogger._log_domain` (lines 282-296) behind the emit-family
methods.  The call `log_method(message, log_type="domain", **caller_info,
**kwargs)` is a TypeError in the host language whenever `kwargs` repeats
one of the keywords already supplied, and otherwise produces the event dict
merging the logger's bound context, the fixed fields and the caller's
fields, later entries overriding earlier ones. -/
def logDomain (L : CustomLogger) (stack : Option (List Frame)) (level : Level)
    (message : String) (kwargs : Record) : Except PyErr Record :=
  if kwargs.any (fun kv => reservedKeys.contains kv.1) then
    .error .typeError
  else
    .ok ([("message", .str message), ("level", .str level.name)] ++
      L.domainContext ++ callerFields (getCallerInfo stack) ++ kwargs)

/-- An emit-family call through a logger reference: the record is built
from the current state of the referenced logger object. -/
def emitOp (h : LoggerHeap) (r : LoggerRef) (stack : Option (List Frame))
    (level : Level) (message : String) (kwargs : Record) : Except PyErr Record :=
  logDomain (h r.id) stack level message kwargs

/-- Folding the dict-update step over entries none of which bind the looked
up key leaves the accumulator unchanged. -/
theorem foldl_override_of_no_key (l : Record) (k : String) (acc : Option FieldVal)
    (h : ∀ kv ∈ l, kv.1 ≠ k) :
    l.foldl (fun a kv => if kv.1 = k then some kv.2 else a) acc = acc := by
  induction l generalizing acc with
  | nil => rfl
  | cons kv t ih =>
    rw [List.foldl_cons, if_neg (h kv (List.mem_cons_self kv t))]
    exact ih _ (fun x hx => h x (List.mem_cons_of_mem kv hx))

/-- Entries of a kwargs list that passes the reserved-keyword check never
bind a reserved key. -/
theorem no_reserved_key_of_any_eq_false (kwargs : Record)
    (hres : kwargs.any (fun kv => reservedKeys.contains kv.1) = false)
    (k : String) (hk : reservedKeys.contains k = true) :
    ∀ kv ∈ kwargs, kv.1 ≠ k := by
  intro kv hkv heq
  have h1 : reservedKeys.contains kv.1 = true := heq ▸ hk
  have h2 : kwargs.any (fun kv => reservedKeys.contains kv.1) = true :=
    List.any_eq_true.mpr ⟨kv, hkv, h1⟩
  rw [h2] at hres
  exact Bool.true_eq_false.mp hres

/-- C4 (counterexample): `bind_request_id` is not non-destructive.  Binding
an id on a logger and then emitting through the original logger reference
produces a record that does include the bound id, because the method
mutated the object in place. -/
theorem bind_request_id_affects_original_logger :
    ∃ rec,
      emitOp (bindRequestIdOp (fun _ => CustomLogger.init "items") ⟨0⟩ "20250101#abc").1
        ⟨0⟩ none .info "hello" [] = .ok rec ∧
      recordGet rec "request_id" = some (.str "20250101#abc") := by
  refine ⟨_, rfl, ?_⟩
  rfl

/-- C4 (amended): `bind_request_id(x)` binds in place.  It returns the very
same logger reference it was called on, and afterwards every record emitted
through that original reference carries `request_id == x` (unless the
caller's own fields rebind that key). -/
theorem bind_request_id_inplace_binding (h : LoggerHeap) (r : LoggerRef)
    (rid : String) (stack : Option (List Frame)) (level : Level)
    (message : String) (kwargs : Record)
    (hk : ∀ kv ∈ kwargs, kv.1 ≠ "request_id") :
    (bindRequestIdOp h r rid).2 = r ∧
    ∀ rec, emitOp (bindRequestIdOp h r rid).1 r stack level message kwargs = .ok rec →
      recordGet rec "request_id" = some (.str rid) := by
  refine ⟨rfl, ?_⟩
  intro rec hrec
  unfold emitOp bindRequestIdOp at hrec
  simp only [if_pos rfl] at hrec
  unfold logDomain at hrec
  by_cases hres : kwargs.any (fun kv => reservedKeys.contains kv.1) = true
  · rw [if_pos hres] at hrec
    exact absurd hrec (by simp)
  · rw [if_neg hres] at hrec
    injection hrec with hrec
    subst hrec
    simp only [recordGet, List.foldl_append, CustomLogger.bindRequestId,
      callerFields, List.foldl_cons, List.foldl_nil]
    rw [foldl_override_of_no_key kwargs _ _ hk]
    simp +decide

/-- Witness for the amended C4 at a concrete heap, logger and id. -/
theorem bind_request_id_inplace_binding_witness :
    (bindRequestIdOp (fun _ => CustomLogger.init "items") ⟨0⟩ "20250101#abc").2
      = (⟨0⟩ : LoggerRef) ∧
    ∀ rec,
      emitOp (bindRequestIdOp (fun _ => CustomLogger.init "items") ⟨0⟩ "20250101#abc").1
          ⟨0⟩ none .info "hello" [] = .ok rec →
        recordGet rec "request_id" = some (.str "20250101#abc") :=
  bind_request_id_inplace_binding (fun _ => CustomLogger.init "items") ⟨0⟩
    "20250101#abc" none .info "hello" [] (by simp)

/-- C9 (counterexample): a log call can raise into the caller.  With a
stack shallower than the four frames `_get_caller_info` expects, an
emit-family call whose caller-supplied fields include a reserved keyword
(here `module`) raises TypeError - `log_method(message, log_type="domain",
**caller_info, **kwargs)` receives the keyword twice - instead of
completing with the fallback record. -/
theorem log_call_raises_on_reserved_key_collision :
    logDomain (CustomLogger.init "svc") (some []) .error "m"
        [("module", .str "x")] = .error .typeError ∧
    ([] : List Frame).length ≤ 3 := by
  exact ⟨rfl, by decide⟩

/-- C9 (amended): caller-location lookup is defensive.  When frame
introspection is unavailable (`inspect.currentframe()` returns None) or the
stack holds fewer than four frames, an emit-family call produces a record
carrying the fallback caller location - module "unknown", func_name
"unknown", lineno 0 - and completes without raising, provided the
caller-supplied fields avoid the reserved keywords log_type, module,
func_name and lineno; a colliding field raises TypeError. -/
theorem caller_info_fallback_defensive (L : CustomLogger)
    (stack : Option (List Frame)) (level : Level) (message : String)
    (kwargs : Record)
    (hshallow : stack = none ∨ ∃ frames, stack = some frames ∧ frames.length ≤ 3)
    (hres : kwargs.any (fun kv => reservedKeys.contains kv.1) = false) :
    ∃ rec, logDomain L stack level message kwargs = .ok rec ∧
      recordGet rec "module" = some (.str "unknown") ∧
      recordGet rec "func_name" = some (.str "unknown") ∧
      recordGet rec "lineno" = some (.int 0) := by
  have hci : getCallerInfo stack = defaultCallerInfo := by
    rcases hshallow with hcase | ⟨frames, hcase, hlen⟩
    · rw [hcase]; rfl
    · rw [hcase]
      simp [getCallerInfo, List.getElem?_eq_none hlen]
  have hlog : logDomain L stack level message kwargs =
      .ok ([("message", .str message), ("level", .str level.name)] ++
        L.domainContext ++ callerFields defaultCallerInfo ++ kwargs) := by
    unfold logDomain
    rw [hci, if_neg (fun hcontra => Bool.false_ne_true (hres ▸ hcontra))]
  refine ⟨_, hlog, ?_, ?_, ?_⟩
  all_goals {
    simp only [recordGet, List.foldl_append, callerFields, defaultCallerInfo,
      List.foldl_cons, List.foldl_nil]
    rw [foldl_override_of_no_key kwargs _ _
      (no_reserved_key_of_any_eq_false kwargs hres _ (by decide))]
    simp +decide
  }

/-- Witness for the amended C9: introspection unavailable, clean kwargs. -/
theorem caller_info_fallback_defensive_witness :
    ∃ rec,
      logDomain (CustomLogger.init "svc") none .info "m" [("user", .str "u1")]
        = .ok rec ∧
      recordGet rec "module" = some (.str "unknown") ∧
      recordGet rec "func_name" = some (.str "unknown") ∧
      recordGet rec "lineno" = some (.int 0) :=
  caller_info_fallback_defensive (CustomLogger.init "svc") none .info "m"
    [("user", .str "u1")] (Or.inl rfl) (by decide)

/-- An exception object as the exception handlers in
src/common/exceptions/handlers.py see it: its class name, its `str(exc)`
rendering, and the optional `message` and `status_code` attributes read
through `getattr` with a default. -/
structure ExcObj where
  typeName : String
  strRepr : String
  messageAttr : Option String
  statusCodeAttr : Option Int
deriving DecidableEq

/-- One `req_logger.error` call made by the `log_exception` helper
(handlers.py lines 13-21): the fixed message plus the `error`,
`status_code` and `exception_type` fields. -/
structure ErrorLog where
  message : String
  error : String
  status_code : Int
  exception_type : String
deriving DecidableEq

/-- `log_exception` (handlers.py lines 13-21): logs once at error level
with `error=getattr(exc, "message", str(exc))`, the given status code and
the exception's class name. -/
def logException (exc : ExcObj) (statusCode : Int) : ErrorLog :=
  { message := "Request failed", error := exc.messageAttr.getD exc.strRepr,
    status_code := statusCode, exception_type := exc.typeName }

/-- Modelled from the spec: the `Error` response-object class that
handlers.py imports from `common.exceptions.pnc_exceptions` and its tests
exercise, but which is absent from the iteration of that module present in
the source tree.  Per the spec's external-interface section it carries a
numeric code and a message and serializes to the JSON body
`(code, message)`. -/
structure Error where
  code : Int
  message : String
deriving DecidableEq

/-- Modelled from the spec: constructing the missing `Error` class
validates the status code at construction time - a code outside 100..599
fails (the tests assert ValueError; a non-integer code fails with
TypeError, which the Int-typed embedding rules out by type). -/
def Error.make (code : Int) (message : String) : Except PyErr Error :=
  if 100 ≤ code ∧ code ≤ 599 then .ok { code := code, message := message }
  else .error .valueError

/-- An HTTP response as produced by `Error.to_response`: the status code
and the JSON body. -/
structure Response where
  status : Int
  body : Record
deriving DecidableEq

/-- Modelled from the spec: `Error.to_response` returns a JSONResponse with
the error's code as HTTP status and body `{"code": ..., "message": ...}`,
as the tests in test_handlers.py assert byte-for-byte. -/
def Error.toResponse (e : Error) : Response :=
  { status := e.code, body := [("code", .int e.code), ("message", .str e.message)] }

/-- State of a PncException object from
src/common/exceptions/pnc_exceptions.py: the class name, `message` and
`status_code` attributes. -/
structure PncException where
  typeName : String
  message : String
  status_code : Int
deriving DecidableEq

/-- `PncException.__init__` (src/common/exceptions/pnc_exceptions.py lines
13-16): stores `message` and `status_code` unconditionally - there is no
validation of the code, so construction always succeeds.  The default
status code is 500. -/
def pncExceptionInit (message : String) (status_code : Int) : PncException :=
  { typeName := "PncException", message := message, status_code := status_code }

/-- `OcrException.__init__` (pnc_exceptions.py lines 19-23): delegates to
`PncException.__init__`; the default status code is 422. -/
def ocrExceptionInit (message : String) (status_code : Int) : PncException :=
  { typeName := "OcrException", message := message, status_code := status_code }

/-- `pnc_exception_handler` (handlers.py lines 23-27): log once through
`log_exception` with the exception's own status code, then return
`Error(exc.status_code, exc.message).to_response()`. -/
def pncExceptionHandler (exc : PncException) : List ErrorLog × Except PyErr Response :=
  ([{ message := "Request failed", error := exc.message,
      status_code := exc.status_code, exception_type := exc.typeName }],
   (Error.make exc.status_code exc.message).map Error.toResponse)

/-- `generic_exception_handler` (handlers.py lines 53-57): log once through
`log_exception` with code 500, then return
`Error(getattr(exc, "status_code", 500), str(exc)).to_response()`. -/
def genericExceptionHandler (exc : ExcObj) : List ErrorLog × Except PyErr Response :=
  ([logException exc 500],
   (Error.make (exc.statusCodeAttr.getD 500) exc.strRepr).map Error.toResponse)

/-- The unclassified exception the repository's own test suite raises at
the catch-all handler: a ValueError carrying a `status_code = 418`
attribute (test_exception_with_status_code_attribute_uses_that_code). -/
def teapotExc : ExcObj :=
  { typeName := "ValueError", strRepr := "Custom status error",
    messageAttr := none, statusCodeAttr := some 418 }

/-- C2 (counterexample): the catch-all handler does not always answer 500.
For an unclassified error that carries its own `status_code` attribute the
handler returns that code - here 418 - exactly as the repository's test
suite asserts, while it still logs the failure with status_code 500. -/
theorem generic_handler_uses_carried_status_code :
    genericExceptionHandler teapotExc =
      ([{ message := "Request failed", error := "Custom status error",
          status_code := 500, exception_type := "ValueError" }],
       .ok { status := 418,
             body := [("code", .int 418), ("message", .str "Custom status error")] }) ∧
    (418 : Int) ≠ 500 := by
  exact ⟨rfl, by decide⟩

/-- C2 (amended): for every unclassified error that carries no
`status_code` attribute, the catch-all handler logs exactly one error-level
record (with status_code 500) and returns, without raising, a structured
500 response whose body is the code 500 and the message `str(exc)`.  An
error that does carry a `status_code` attribute yields that code instead. -/
theorem generic_handler_without_status_attr_returns_500 (exc : ExcObj)
    (h : exc.statusCodeAttr = none) :
    genericExceptionHandler exc =
      ([{ message := "Request failed", error := exc.messageAttr.getD exc.strRepr,
          status_code := 500, exception_type := exc.typeName }],
       .ok { status := 500,
             body := [("code", .int 500), ("message", .str exc.strRepr)] }) := by
  simp [genericExceptionHandler, logException, Error.make, Error.toResponse, h,
    Option.getD, Except.map]

/-- Witness for the amended C2 at a concrete attribute-less error. -/
theorem generic_handler_without_status_attr_returns_500_witness :
    genericExceptionHandler
      { typeName := "RuntimeError", strRepr := "boom",
        messageAttr := none, statusCodeAttr := none } =
      ([{ message := "Request failed", error := "boom",
          status_code := 500, exception_type := "RuntimeError" }],
       .ok { status := 500,
             body := [("code", .int 500), ("message", .str "boom")] }) :=
  generic_handler_without_status_attr_returns_500
    { typeName := "RuntimeError", strRepr := "boom",
      messageAttr := none, statusCodeAttr := none } rfl

/-- C3 (code bug): `PncException.__init__` in the source performs no
status-code validation.  Construction with the codes 55, 666 and -1 - which
the claim, the spec and the repository's own tests
(test_will_raise_error_with_invalid_status_code and friends) all require to
fail with ValueError - succeeds and stores the invalid code unchanged. -/
theorem pnc_exception_accepts_invalid_status_codes :
    (pncExceptionInit "Invalid code error" 55).status_code = 55 ∧
    (pncExceptionInit "Invalid code error" 666).status_code = 666 ∧
    (pncExceptionInit "Invalid code error" (-1)).status_code = -1 := by
  exact ⟨rfl, rfl, rfl⟩

/-- C5: a domain error with status 422 and message "X failed" reaching
`pnc_exception_handler` yields a response with status 422 whose body is
exactly code 422 and message "X failed", and exactly one error-level log
record carrying status_code 422 and the original message. -/
theorem domain_error_422_response_and_single_error_log :
    pncExceptionHandler (ocrExceptionInit "X failed" 422) =
      ([{ message := "Request failed", error := "X failed",
          status_code := 422, exception_type := "OcrException" }],
       .ok { status := 422,
             body := [("code", .int 422), ("message", .str "X failed")] }) := by
  rfl

end POC
